import Mathlib

/-!
Verification development for the `cortex-claude-code-agent-sdk` helper app:
a shallow embedding of `src/config.py`, `src/tools.py`, `src/executor.py`
and `src/main.py`, followed by theorems about the embedded program.

Modelling conventions:
* Filesystem paths are lists of components (`List String`); a workspace's
  contents are modelled by the list of its regular files given as relative
  component paths (directories only matter as components of file paths,
  mirroring `Path.rglob` + `is_file()`).
* The external engine (`claude_agent_sdk.query`), the upload endpoint and
  the wall clock are oracles passed in as parameters: a `Script` records
  which exceptional outcome, if any, each step of `execute_task` hits.
* Exceptions are modelled by explicit control flow: `execute_task` either
  returns an envelope (all `except` branches of the source return) or
  propagates cancellation (`asyncio.CancelledError` delivered by
  `asyncio.wait_for` on deadline expiry, which is not an `Exception` and
  is re-raised after the `finally` block runs).
* A JSON field that is absent and a field that is present with value
  `null` are both modelled as `none`; a field "holds a value" when it is
  `some`.
-/

namespace Cortex

/-! ### Embedding of `src/config.py` (defaults of the environment lookups) -/

/-- Default of `TASK_TIMEOUT_SECONDS` (config.py line 11). -/
def TASK_TIMEOUT_SECONDS : Nat := 300

/-- Default of `MAX_TURNS` (config.py line 12). -/
def MAX_TURNS : Nat := 50

/-- Default of `MAX_CONCURRENT_TASKS` (config.py line 16). -/
def MAX_CONCURRENT_TASKS : Nat := 5

/-! ### Path helpers -/

/-- Embeds `part.startswith(".")` from tools.py line 44, decided on the character
data of the string. -/
def startsWithDot (part : String) : Bool :=
  match part.data with
  | [] => false
  | c :: _ => c == '.'

/-- Embeds `Path(p).name`: the last component of a path given as components. -/
def pathName (parts : List String) : String :=
  parts.getLastD ""

/-- Rendering of a component path, as `str(path)` produces it. -/
def pathStr (parts : List String) : String :=
  String.intercalate "/" parts

/-! ### Embedding of `src/tools.py` -/

/-- The filter applied by `list_workspace_files` (tools.py lines 43-47) to
the component list of one file's full path, for `exclude_hidden = True`:
skip when any component of `item.parts` starts with a dot, and skip when
`item.name` is exactly one of `"__pycache__"`, `".pyc"`, `".pyo"`. -/
def artifactKeep (parts : List String) : Bool :=
  !(parts.any startsWithDot) &&
    !(pathName parts == "__pycache__" || pathName parts == ".pyc" ||
      pathName parts == ".pyo")

/-- Embeds `list_workspace_files(workspace, exclude_hidden)` (tools.py lines
36-50).  The workspace's regular files are given as relative component
paths `relFiles`; `item.parts` of each file is the full path
`workspaceParts ++ rel`, so the dot test ranges over the workspace base
components as well. -/
def list_workspace_files (workspaceParts : List String)
    (relFiles : List (List String)) (exclude_hidden : Bool) :
    List (List String) :=
  (relFiles.map (fun rel => workspaceParts ++ rel)).filter (fun parts =>
    !(exclude_hidden && parts.any startsWithDot) &&
      !(pathName parts == "__pycache__" || pathName parts == ".pyc" ||
        pathName parts == ".pyo"))

/-- Response JSON of `upload_to_file_handler` (tools.py line 33); only the
`url` field is consumed by the caller (`result.get("url", "")`). -/
structure UploadResp where
  url : Option String
deriving Repr, DecidableEq

/-- One uploaded artifact record (executor.py lines 149-152). -/
structure Artifact where
  filename : String
  url : String
deriving Repr, DecidableEq

/-- Oracle for `upload_to_file_handler`: per file path, either the parsed
response JSON or the message of the raised exception. -/
def UploadFn : Type :=
  List String → Except String UploadResp

/-! ### Embedding of `src/executor.py` -/

/-- One content block of an engine message: a block with a `text`
attribute, or a tool-invocation block with a `name` attribute
(executor.py lines 122-126). -/
inductive Block where
  | text (t : String)
  | tool (name : String)
deriving Repr, DecidableEq

/-- The `content` of one streamed message after the normalisation of
executor.py line 121: messages without a truthy `content` attribute
contribute no blocks; a bare block is the singleton list. -/
inductive MsgContent where
  | absent
  | blocks (bs : List Block)
deriving Repr, DecidableEq

/-- The blocks a message contributes to the loop body. -/
def msgBlocks : MsgContent → List Block
  | MsgContent.absent => []
  | MsgContent.blocks bs => bs

/-- The text carried by a block, if it is a text block. -/
def textOf : Block → Option String
  | Block.text t => some t
  | Block.tool _ => none

/-- The message-consumption loop of `_run_claude` (executor.py lines
114-129): fold over the stream, overwriting `final_response` with the
text of every text block and leaving it unchanged on tool blocks. -/
def _run_claude (msgs : List MsgContent) : String :=
  msgs.foldl (fun acc m =>
    (msgBlocks m).foldl (fun a b =>
      match b with
      | Block.text t => t
      | Block.tool _ => a) acc) ""

/-- The `ClaudeAgentOptions` record as constructed in executor.py lines 105-112. -/
structure ClaudeAgentOptions where
  system_prompt : String
  allowed_tools : List String
  cwd : String
  permission_mode : String
  max_turns : Nat
  max_buffer_size : Nat
deriving Repr, DecidableEq

/-- The system prompt literal of executor.py lines 92-99. -/
def systemPrompt : String :=
  "You are a fast code executor. Complete tasks with minimal steps.\n\nRULES:\n- Be FAST: Take the shortest path to completion\n- If the task is a simple question/calculation, just compute and respond - no files needed\n- For complex outputs (charts, documents, data), save files to current directory\n- NEVER read binary files you just created\n- Be concise: short responses, no fluff"

/-- The prompt built from the task content (executor.py lines 101-103). -/
def buildPrompt (task_content : String) : String :=
  task_content ++
    "\n\nIf this creates files, list them at the end. If it's just a calculation/answer, just give the answer."

/-- The options value passed to `query` (executor.py lines 105-112): the
workspace path is handed to the engine explicitly through the `cwd`
field. -/
def mkClaudeOptions (workspace : String) (maxTurns : Nat) :
    ClaudeAgentOptions :=
  { system_prompt := systemPrompt
    allowed_tools := ["Read", "Write", "Edit", "Bash", "WebSearch", "WebFetch"]
    cwd := workspace
    permission_mode := "acceptEdits"
    max_turns := maxTurns
    max_buffer_size := 10 * 1024 * 1024 }

/-- Decimal rendering of a natural number, the embedding of Python's
`str(int)` used by the f-strings of executor.py line 26 and main.py
line 75. -/
def natStr (n : Nat) : String :=
  if n = 0 then "0"
  else ((Nat.digits 10 n).reverse.map Nat.digitChar).asString

/-- Embeds `f"cc-{int(datetime.now().timestamp() * 1000)}"` (executor.py line
26): the generated task identifier is a fixed tag plus the
millisecond-resolution timestamp of the invocation. -/
def genTaskId (timestampMs : Nat) : String :=
  "cc-" ++ natStr timestampMs

/-- Embeds `task_id = task_id or f"cc-..."` (executor.py line 26): a missing or
empty (falsy) supplied identifier is replaced by the generated one. -/
def resolveTaskId (taskIdOpt : Option String) (nowMs : Nat) : String :=
  match taskIdOpt with
  | some t => if t == "" then genTaskId nowMs else t
  | none => genTaskId nowMs

/-- The result/response JSON envelope (executor.py lines 52-74, main.py
handlers).  A key that a given code path does not emit, and a key emitted
with value `None`, are both `none`. -/
structure Envelope where
  success : Bool
  result : Option String
  artifacts : Option (List Artifact)
  error : Option String
  duration_ms : Option Int
deriving Repr, DecidableEq

/-- The mutable process-wide state touched by `execute_task`: the shared
current working directory (`os.getcwd` / `os.chdir`), whether the
workspace directory of the task at hand exists, and the regular files it
currently holds (as relative component paths). -/
structure ProcState where
  cwd : List String
  wsExists : Bool
  wsFiles : List (List String)
deriving Repr, DecidableEq

/-- The terminal behaviour of the `_run_claude` step inside one call of
`execute_task`:
* `ok msgs produced` — the stream completed with messages `msgs`, leaving
  the files `produced` in the workspace;
* `raiseExc msg` — an `Exception` with message `msg` was raised;
* `timeoutErr` — an `asyncio.TimeoutError` was raised inside the call;
* `cancelled` — `asyncio.CancelledError` was delivered at the await point
  (what `asyncio.wait_for` injects when the deadline elapses; it is a
  `BaseException`, caught by neither `except` clause of executor.py). -/
inductive RunOutcome where
  | ok (msgs : List MsgContent) (produced : List (List String))
  | raiseExc (msg : String)
  | timeoutErr
  | cancelled
deriving Repr, DecidableEq

/-- Oracle for the exceptional behaviour of one `execute_task` call:
whether `workspace.mkdir` raises, how the engine run ends, whether the
artifact-collection step raises outside the per-file `try`, and whether
the two cleanup actions of the `finally` block fail. -/
structure Script where
  mkdirFail : Option String
  runOutcome : RunOutcome
  collectFail : Option String
  restoreFails : Bool
  teardownFails : Bool
deriving Repr, DecidableEq

/-- How a call of `execute_task` leaves its caller: a returned result
dict, or a propagating cancellation. -/
inductive ExecExit where
  | returned (envelope : Envelope)
  | cancelled
deriving Repr, DecidableEq

/-- The success envelope of executor.py lines 52-57; `duration_ms` is the
wall-clock delta from `start_time` to the `datetime.now()` of line 49. -/
def successEnvelope (text : String) (arts : List Artifact)
    (startT endT : Int) : Envelope :=
  { success := true
    result := some text
    artifacts := some arts
    error := none
    duration_ms := some (endT - startT) }

/-- The failure envelope of executor.py lines 69-74 (and, with its fixed
message, lines 61-66): `result` is emitted as `None`. -/
def failureEnvelope (msg : String) (startT endT : Int) : Envelope :=
  { success := false
    result := none
    artifacts := none
    error := some msg
    duration_ms := some (endT - startT) }

/-- executor.py lines 61-66: the envelope for an `asyncio.TimeoutError`
raised inside the call, with the fixed message. -/
def timeoutEnvelope (startT endT : Int) : Envelope :=
  failureEnvelope "Task timed out" startT endT

/-- executor.py lines 35-37: `workspace.mkdir(parents=True, exist_ok=True)`
followed by `os.chdir(workspace)` — the workspace directory now exists and
the process-wide current directory is redirected to it. -/
def setupPhase (workspaceParts : List String) (fs : ProcState) : ProcState :=
  { fs with wsExists := true, cwd := workspaceParts }

/-- executor.py lines 77-80: `os.chdir(original_cwd)` wrapped in a bare
`try/except`.  `originalCwd = none` models the path on which `original_cwd`
was never assigned (mkdir raised first), where the `NameError` is
swallowed; a failing restore is likewise swallowed. -/
def restoreCwd (originalCwd : Option (List String)) (restoreFails : Bool)
    (fs : ProcState) : ProcState :=
  match originalCwd with
  | some c => if restoreFails then fs else { fs with cwd := c }
  | none => fs

/-- executor.py lines 81-85: `if workspace.exists(): shutil.rmtree(...)`
wrapped in a bare `try/except`; a failing removal is swallowed and leaves
the directory in place. -/
def teardownWorkspace (teardownFails : Bool) (fs : ProcState) : ProcState :=
  if fs.wsExists && !teardownFails then
    { fs with wsExists := false, wsFiles := [] }
  else fs

/-- The `finally` block of executor.py lines 75-85: restore the current
directory, then remove the workspace, each failure swallowed. -/
def finallyPhase (originalCwd : Option (List String))
    (restoreFails teardownFails : Bool) (fs : ProcState) : ProcState :=
  teardownWorkspace teardownFails (restoreCwd originalCwd restoreFails fs)

/-- Embeds `_upload_artifacts(workspace, context_id)` (executor.py lines 132-156):
return `[]` when the workspace is gone, else upload each enumerated file,
appending a record on success and skipping the file when the upload
raises. -/
def uploadLoop (uploader : UploadFn) : List (List String) → List Artifact
  | [] => []
  | f :: fsRest =>
    match uploader f with
    | Except.ok r =>
      { filename := pathName f, url := r.url.getD "" } :: uploadLoop uploader fsRest
    | Except.error _ => uploadLoop uploader fsRest

/-- The body of `_upload_artifacts` given the current process state. -/
def _upload_artifacts (uploader : UploadFn) (fs : ProcState)
    (workspaceParts : List String) : List Artifact :=
  if fs.wsExists then
    uploadLoop uploader (list_workspace_files workspaceParts fs.wsFiles true)
  else []

/-- Embeds `execute_task(task_content, context_id, task_id)` (executor.py lines
14-85) as a state transformer.  Parameters: the configured workspace base
path (components), the optional supplied task id, the millisecond
timestamp used when generating one, the exception script, the upload
oracle, the two clock readings (at line 28 and at the end of the taken
path), and the incoming process state.  Produces the caller-visible exit
and the process state after the `finally` block. -/
def execute_task (baseParts : List String) (taskIdOpt : Option String)
    (nowMs : Nat) (script : Script) (uploader : UploadFn)
    (startT endT : Int) (fs0 : ProcState) : ExecExit × ProcState :=
  let task_id := resolveTaskId taskIdOpt nowMs
  let workspaceParts := baseParts ++ [task_id]
  match script.mkdirFail with
  | some msg =>
    -- `workspace.mkdir` raised: caught by `except Exception` (line 67);
    -- `original_cwd` was never assigned, so the restore is a no-op.
    (ExecExit.returned (failureEnvelope msg startT endT),
      finallyPhase none script.restoreFails script.teardownFails fs0)
  | none =>
    let originalCwd := fs0.cwd
    let fs1 := setupPhase workspaceParts fs0
    let fin := finallyPhase (some originalCwd) script.restoreFails
      script.teardownFails
    match script.runOutcome with
    | RunOutcome.cancelled =>
      -- CancelledError: `finally` runs, then the exception propagates.
      (ExecExit.cancelled, fin fs1)
    | RunOutcome.timeoutErr =>
      (ExecExit.returned (timeoutEnvelope startT endT), fin fs1)
    | RunOutcome.raiseExc msg =>
      (ExecExit.returned (failureEnvelope msg startT endT), fin fs1)
    | RunOutcome.ok msgs produced =>
      let result_text := _run_claude msgs
      let fs2 := { fs1 with wsFiles := produced }
      match script.collectFail with
      | some msg =>
        (ExecExit.returned (failureEnvelope msg startT endT), fin fs2)
      | none =>
        let artifacts := _upload_artifacts uploader fs2 workspaceParts
        (ExecExit.returned (successEnvelope result_text artifacts startT endT),
          fin fs2)

/-! ### Embedding of `src/main.py` -/

/-- An HTTP response of the `/execute` handler: status code and JSON
body. -/
structure HttpResponse where
  status : Nat
  body : Envelope
deriving Repr, DecidableEq

/-- The bare `{"success": False, "error": msg}` bodies emitted by main.py
(lines 40-43, 50-58, 73-76, 79-82): no `result`, `artifacts` or
`duration_ms` key. -/
def errorBody (msg : String) : Envelope :=
  { success := false
    result := none
    artifacts := none
    error := some msg
    duration_ms := none }

/-- The parsed request body: either the JSON parse failed, or the three
`data.get(...)` lookups (absent keys give `none`). -/
inductive ReqBody where
  | invalidJson
  | json (task : Option String) (contextId : Option String)
      (taskId : Option String)
deriving Repr, DecidableEq

/-- Embeds `f"Task timed out after {TASK_TIMEOUT_SECONDS}s"` (main.py line 75). -/
def timeoutMessage (timeoutSecs : Nat) : String :=
  "Task timed out after " ++ natStr timeoutSecs ++ "s"

/-- Embeds `handle_execute` (main.py lines 19-82): validation, then the
`asyncio.wait_for(execute_task(...), timeout=...)` call inside the
semaphore block.  A deadline expiry cancels `execute_task` (its exit is
`cancelled`) and `wait_for` raises `asyncio.TimeoutError`, answered with
the 200 timeout body of lines 73-76.  The semaphore itself is modelled
separately (`SemStep`). -/
def handle_execute (body : ReqBody) (baseParts : List String) (nowMs : Nat)
    (script : Script) (uploader : UploadFn) (timeoutSecs : Nat)
    (startT endT : Int) (fs0 : ProcState) : HttpResponse × ProcState :=
  match body with
  | ReqBody.invalidJson => (⟨400, errorBody "Invalid JSON body"⟩, fs0)
  | ReqBody.json task contextId taskId =>
    if task.getD "" == "" then
      (⟨400, errorBody "Missing 'task' field"⟩, fs0)
    else if contextId.getD "" == "" then
      (⟨400, errorBody "Missing 'contextId' field"⟩, fs0)
    else
      match execute_task baseParts taskId nowMs script uploader startT endT
        fs0 with
      | (ExecExit.returned envelope, fs1) => (⟨200, envelope⟩, fs1)
      | (ExecExit.cancelled, fs1) =>
        (⟨200, errorBody (timeoutMessage timeoutSecs)⟩, fs1)

/-! ### Observation helpers on exits and envelopes -/

/-- The `success` flag of a returned envelope (`none` when the call did
not return). -/
def exitSuccess : ExecExit → Option Bool
  | ExecExit.returned e => some e.success
  | ExecExit.cancelled => none

/-- The `result` field of a returned envelope. -/
def exitResult : ExecExit → Option (Option String)
  | ExecExit.returned e => some e.result
  | ExecExit.cancelled => none

/-- Exactly one of the `result` / `error` values is present in an
envelope. -/
def exactlyOneResultError (e : Envelope) : Bool :=
  (e.result.isSome && e.error.isNone) || (e.result.isNone && e.error.isSome)

/-- Tests whether `suf` is a suffix of `s`, decided on character data. -/
def endsWithStr (suf s : String) : Bool :=
  suf.data.isSuffixOf s.data

/-- Modelled from the spec (§4.5 and the C6 sources), for refinement
comparison only: "`collect(workspace_path)` enumerates every regular file
anywhere under the workspace (recursively), excluding: dotfiles and
anything inside a dot-prefixed directory at any depth, and a small fixed
set of compiled/cache artifacts", the latter named as `__pycache__`
contents and `.pyc`/`.pyo` files.  The exclusions are read relative to
the workspace, as "under the workspace" words it. -/
def collectSpec (workspaceParts : List String)
    (relFiles : List (List String)) : List (List String) :=
  (relFiles.filter (fun rel =>
    !(rel.any startsWithDot) &&
      !(rel.any (fun part => part == "__pycache__")) &&
      !(endsWithStr ".pyc" (pathName rel)) &&
      !(endsWithStr ".pyo" (pathName rel)))).map
    (fun rel => workspaceParts ++ rel)

/-! ### The admission semaphore (main.py lines 16 and 64)

`_semaphore = asyncio.Semaphore(MAX_CONCURRENT_TASKS)` together with the
`async with _semaphore:` block of `handle_execute` is modelled as a
labelled transition system over the semaphore counter and the phase of
each admitted request: `acquire` (entering the `async with`) requires a
positive counter and decrements it; leaving the block — whether
`execute_task` returned, raised or timed out — increments it again and is
the only transition that releases. -/

/-- Phase of one request with respect to the semaphore block: not yet
admitted, inside the `async with` body, or done (slot released). -/
inductive Phase where
  | waiting
  | executing
  | finished
deriving Repr, DecidableEq

/-- Global state: semaphore counter plus the phase of each request. -/
structure Sys where
  sem : Nat
  tasks : List Phase
deriving Repr, DecidableEq

/-- Event labels: request `i` acquires / releases the semaphore. -/
inductive SemLabel where
  | acq (i : Nat)
  | rel (i : Nat)
deriving Repr, DecidableEq

/-- One scheduler step of the semaphore protocol. -/
inductive SemStep : Sys → SemLabel → Sys → Prop where
  | acq {s : Sys} {i : Nat}
      (hw : s.tasks[i]? = some Phase.waiting) (hs : 0 < s.sem) :
      SemStep s (SemLabel.acq i) ⟨s.sem - 1, s.tasks.set i Phase.executing⟩
  | rel {s : Sys} {i : Nat}
      (he : s.tasks[i]? = some Phase.executing) :
      SemStep s (SemLabel.rel i) ⟨s.sem + 1, s.tasks.set i Phase.finished⟩

/-- A finite labelled run of the semaphore protocol. -/
inductive SemTrace : Sys → List SemLabel → Sys → Prop where
  | nil {s : Sys} : SemTrace s [] s
  | cons {s s' s'' : Sys} {l : SemLabel} {ls : List SemLabel}
      (hstep : SemStep s l s') (htr : SemTrace s' ls s'') :
      SemTrace s (l :: ls) s''

/-- Number of requests currently inside the `async with` body. -/
def execCount (s : Sys) : Nat :=
  s.tasks.count Phase.executing

/-- Initial state: a fresh semaphore of capacity `n` and `r` submitted
requests, none admitted yet. -/
def semInit (n r : Nat) : Sys :=
  ⟨n, List.replicate r Phase.waiting⟩

/-- How many further `rel` events a request in the given phase can emit. -/
def relBudget : Phase → Nat
  | Phase.waiting => 1
  | Phase.executing => 1
  | Phase.finished => 0

/-- The phase of request `i`, defaulting out-of-range indices to
`finished` (they can emit nothing). -/
def phaseOf (s : Sys) (i : Nat) : Phase :=
  (s.tasks[i]?).getD Phase.finished

theorem relBudget_le_one (p : Phase) : relBudget p ≤ 1 := by
  cases p <;> simp [relBudget]

/-- One step preserves the number of requests (only phases change). -/
theorem semStep_length {s s' : Sys} {l : SemLabel} (h : SemStep s l s') :
    s'.tasks.length = s.tasks.length := by
  cases h <;> simp

/-- A run preserves the number of requests. -/
theorem semTrace_length {s s' : Sys} {ls : List SemLabel}
    (h : SemTrace s ls s') : s'.tasks.length = s.tasks.length := by
  induction h with
  | nil => rfl
  | cons hstep _ ih => rw [ih, semStep_length hstep]

/-- One step preserves `sem + execCount`: a free slot turns into an
executing request and vice versa. -/
theorem semStep_sem_execCount {s s' : Sys} {l : SemLabel}
    (h : SemStep s l s') : s'.sem + execCount s' = s.sem + execCount s := by
  cases h with
  | @acq i hw hs =>
    rcases List.getElem?_eq_some_iff.mp hw with ⟨hi, hval⟩
    have hcnt := List.count_set Phase.executing Phase.executing s.tasks i hi
    rw [hval] at hcnt
    simp at hcnt
    simp only [execCount, hcnt]
    omega
  | @rel i he =>
    rcases List.getElem?_eq_some_iff.mp he with ⟨hi, hval⟩
    have hcnt := List.count_set Phase.finished Phase.executing s.tasks i hi
    rw [hval] at hcnt
    simp at hcnt
    have hpos : 0 < s.tasks.count Phase.executing :=
      List.count_pos_iff.mpr (List.getElem?_mem he)
    simp only [execCount, hcnt]
    omega

/-- Run invariant: the free slots plus the executing requests always sum
to the initial capacity. -/
theorem semTrace_sem_execCount {s s' : Sys} {ls : List SemLabel}
    (h : SemTrace s ls s') : s'.sem + execCount s' = s.sem + execCount s := by
  induction h with
  | nil => rfl
  | cons hstep _ ih => rw [ih, semStep_sem_execCount hstep]

/-- Release accounting along a run: the `rel i` events emitted plus the
remaining budget of request `i` equal its budget at the start. -/
theorem semTrace_rel_budget {s s' : Sys} {ls : List SemLabel}
    (h : SemTrace s ls s') (i : Nat) :
    ls.count (SemLabel.rel i) + relBudget (phaseOf s' i) =
      relBudget (phaseOf s i) := by
  induction h with
  | nil => simp
  | @cons s s' s'' l ls hstep htr ih =>
    cases hstep with
    | @acq j hw hs =>
      rcases List.getElem?_eq_some_iff.mp hw with ⟨hj, hval⟩
      have hcount : (SemLabel.acq j :: ls).count (SemLabel.rel i) =
          ls.count (SemLabel.rel i) := by
        simp [List.count_cons]
      rw [hcount, ih]
      by_cases hij : i = j
      · subst hij
        simp only [phaseOf, List.getElem?_set_self hj]
        have : s.tasks[i]? = some Phase.waiting := hw
        simp [this, relBudget]
      · simp only [phaseOf, List.getElem?_set_ne (fun hji => hij hji.symm)]
    | @rel j he =>
      rcases List.getElem?_eq_some_iff.mp he with ⟨hj, hval⟩
      by_cases hij : i = j
      · subst hij
        have hcount : (SemLabel.rel i :: ls).count (SemLabel.rel i) =
            ls.count (SemLabel.rel i) + 1 := by
          simp [List.count_cons]
        have hfin : phaseOf ⟨s.sem + 1, s.tasks.set i Phase.finished⟩ i =
            Phase.finished := by
          simp [phaseOf, List.getElem?_set_self hj]
        rw [hfin] at ih
        have hstart : phaseOf s i = Phase.executing := by
          simp [phaseOf, he]
        rw [hcount, hstart]
        simp only [relBudget] at ih ⊢
        omega
      · have hcount : (SemLabel.rel j :: ls).count (SemLabel.rel i) =
            ls.count (SemLabel.rel i) := by
          simp [List.count_cons, hij]
        rw [hcount, ih]
        simp only [phaseOf, List.getElem?_set_ne (fun hji => hij hji.symm)]

/-! ### Helper lemmas -/

theorem teardownWorkspace_wsExists_false (fs : ProcState) :
    (teardownWorkspace false fs).wsExists = false := by
  unfold teardownWorkspace
  cases h : fs.wsExists <;> simp [h]

theorem getLastD_append_eq {α : Type} (l1 l2 : List α) (a : α) :
    (l1 ++ l2).getLastD a = l2.getLastD (l1.getLastD a) := by
  induction l1 generalizing a with
  | nil => rfl
  | cons x xs ih => simp only [List.cons_append, List.getLastD_cons, ih]

theorem blockFold_getLastD (bs : List Block) (acc : String) :
    bs.foldl (fun a b =>
      match b with
      | Block.text t => t
      | Block.tool _ => a) acc = (bs.filterMap textOf).getLastD acc := by
  induction bs generalizing acc with
  | nil => rfl
  | cons b bs ih =>
    cases b with
    | text t =>
      simp only [List.foldl_cons, List.filterMap_cons, textOf, ih,
        List.getLastD_cons]
    | tool n =>
      simp only [List.foldl_cons, List.filterMap_cons, textOf, ih]

theorem run_claude_getLastD (msgs : List MsgContent) :
    _run_claude msgs =
      (((msgs.map msgBlocks).flatten).filterMap textOf).getLastD "" := by
  suffices h : ∀ acc, msgs.foldl (fun acc m =>
      (msgBlocks m).foldl (fun a b =>
        match b with
        | Block.text t => t
        | Block.tool _ => a) acc) acc =
      (((msgs.map msgBlocks).flatten).filterMap textOf).getLastD acc from
    h ""
  induction msgs with
  | nil => intro acc; rfl
  | cons m ms ih =>
    intro acc
    rw [List.foldl_cons, blockFold_getLastD, ih]
    rw [List.map_cons, List.flatten_cons, List.filterMap_append,
      getLastD_append_eq]

theorem uploadLoop_append (uploader : UploadFn) (l1 l2 : List (List String)) :
    uploadLoop uploader (l1 ++ l2) =
      uploadLoop uploader l1 ++ uploadLoop uploader l2 := by
  induction l1 with
  | nil => rfl
  | cons f fsRest ih =>
    cases hu : uploader f <;>
      simp [uploadLoop, hu, ih]

/-- Injectivity of `Nat.digitChar` on single digits. -/
theorem digitChar_inj_lt10 :
    ∀ a < 10, ∀ b < 10, Nat.digitChar a = Nat.digitChar b → a = b := by
  decide

theorem map_digitChar_inj :
    ∀ l1 l2 : List Nat, (∀ x ∈ l1, x < 10) → (∀ x ∈ l2, x < 10) →
      l1.map Nat.digitChar = l2.map Nat.digitChar → l1 = l2 := by
  intro l1
  induction l1 with
  | nil =>
    intro l2 _ _ h
    cases l2 with
    | nil => rfl
    | cons y ys => simp at h
  | cons x xs ih =>
    intro l2 h1 h2 h
    cases l2 with
    | nil => simp at h
    | cons y ys =>
      simp only [List.map_cons, List.cons.injEq] at h
      obtain ⟨hxy, hrest⟩ := h
      have hx := h1 x (List.mem_cons_self x xs)
      have hy := h2 y (List.mem_cons_self y ys)
      have hxy2 := digitChar_inj_lt10 x hx y hy hxy
      have hys := ih ys (fun z hz => h1 z (List.mem_cons_of_mem x hz))
        (fun z hz => h2 z (List.mem_cons_of_mem y hz)) hrest
      rw [hxy2, hys]

/-- The decimal rendering of executor.py line 26 is injective: distinct
millisecond timestamps give distinct digit strings. -/
theorem natStr_injective : Function.Injective natStr := by
  intro a b h
  unfold natStr at h
  by_cases ha : a = 0 <;> by_cases hb : b = 0
  · rw [ha, hb]
  · exfalso
    rw [if_pos ha, if_neg hb] at h
    have h0 : (['0'] : List Char).asString =
        ((Nat.digits 10 b).reverse.map Nat.digitChar).asString := h
    have hlist := List.asString_inj.mp h0
    have hlen := congrArg List.length hlist
    simp only [List.length_cons, List.length_nil, List.length_map,
      List.length_reverse] at hlen
    obtain ⟨d, hd⟩ := List.length_eq_one.mp hlen.symm
    rw [hd] at hlist
    simp only [List.reverse_cons, List.reverse_nil, List.nil_append,
      List.map_cons, List.map_nil, List.cons.injEq] at hlist
    have hdmem : d ∈ Nat.digits 10 b := by rw [hd]; exact List.mem_singleton.mpr rfl
    have hdlt : d < 10 := Nat.digits_lt_base (by norm_num) hdmem
    have hd0 : d = 0 :=
      digitChar_inj_lt10 d hdlt 0 (by norm_num) hlist.1.symm
    have hb0 : b = 0 := by
      have := Nat.ofDigits_digits 10 b
      rw [hd, hd0] at this
      simpa [Nat.ofDigits] using this.symm
    exact hb hb0
  · exfalso
    rw [if_neg ha, if_pos hb] at h
    have h0 : ((Nat.digits 10 a).reverse.map Nat.digitChar).asString =
        (['0'] : List Char).asString := h
    have hlist := List.asString_inj.mp h0
    have hlen := congrArg List.length hlist
    simp only [List.length_cons, List.length_nil, List.length_map,
      List.length_reverse] at hlen
    obtain ⟨d, hd⟩ := List.length_eq_one.mp hlen
    rw [hd] at hlist
    simp only [List.reverse_cons, List.reverse_nil, List.nil_append,
      List.map_cons, List.map_nil, List.cons.injEq] at hlist
    have hdmem : d ∈ Nat.digits 10 a := by rw [hd]; exact List.mem_singleton.mpr rfl
    have hdlt : d < 10 := Nat.digits_lt_base (by norm_num) hdmem
    have hd0 : d = 0 :=
      digitChar_inj_lt10 d hdlt 0 (by norm_num) hlist.1
    have ha0 : a = 0 := by
      have := Nat.ofDigits_digits 10 a
      rw [hd, hd0] at this
      simpa [Nat.ofDigits] using this.symm
    exact ha ha0
  · rw [if_neg ha, if_neg hb] at h
    have hlist := List.asString_inj.mp h
    have hrev := List.reverse_inj.mp
      (map_digitChar_inj _ _
        (fun x hx => Nat.digits_lt_base (by norm_num)
          (List.mem_reverse.mp hx))
        (fun x hx => Nat.digits_lt_base (by norm_num)
          (List.mem_reverse.mp hx)) hlist)
    exact Nat.digits_inj_iff.mp hrev

/-- The generated task identifier is injective in the timestamp. -/
theorem genTaskId_injective : Function.Injective genTaskId := by
  intro a b h
  have hdata := congrArg String.data h
  simp only [genTaskId, String.data_append] at hdata
  have := List.append_cancel_left hdata
  exact natStr_injective (String.ext this)

theorem timeoutMessage_length (t : Nat) :
    (timeoutMessage t).length = 22 + (natStr t).length := by
  have h1 : ("Task timed out after " : String).length = 21 := rfl
  have h2 : ("s" : String).length = 1 := rfl
  simp only [timeoutMessage, String.length_append, h1, h2]
  omega

/-- The deadline message of main.py line 75 is never a string of fewer
than 22 characters, whatever the configured timeout. -/
theorem timeoutMessage_ne_short (t : Nat) (msg : String)
    (hlen : msg.length < 22) : timeoutMessage t ≠ msg := by
  intro h
  have := congrArg String.length h
  rw [timeoutMessage_length] at this
  omega

/-! ### Claims -/

/-- C7: for every finite stream of engine messages, `_run_claude` returns
the text of the most recent textual content block across all messages —
later text supersedes earlier text, a tool-invocation block leaves the
result unchanged, and the blocks are not concatenated; when the stream
produced no textual content the result is the empty string and the task
still completes with `success = true` and `result = some ""`. -/
theorem run_claude_latest_text :
    (∀ msgs : List MsgContent,
      _run_claude msgs =
        (((msgs.map msgBlocks).flatten).filterMap textOf).getLastD "") ∧
    (∀ (msgs : List MsgContent) (n : String),
      _run_claude (msgs ++ [MsgContent.blocks [Block.tool n]]) =
        _run_claude msgs) ∧
    (∀ (msgs : List MsgContent) (baseParts : List String)
        (taskIdOpt : Option String) (nowMs : Nat)
        (produced : List (List String)) (rf tf : Bool)
        (uploader : UploadFn) (startT endT : Int) (fs0 : ProcState),
      ((msgs.map msgBlocks).flatten).filterMap textOf = [] →
      _run_claude msgs = "" ∧
      exitSuccess (execute_task baseParts taskIdOpt nowMs
        { mkdirFail := none, runOutcome := RunOutcome.ok msgs produced,
          collectFail := none, restoreFails := rf, teardownFails := tf }
        uploader startT endT fs0).1 = some true ∧
      exitResult (execute_task baseParts taskIdOpt nowMs
        { mkdirFail := none, runOutcome := RunOutcome.ok msgs produced,
          collectFail := none, restoreFails := rf, teardownFails := tf }
        uploader startT endT fs0).1 = some (some "")) := by
  refine ⟨run_claude_getLastD, ?_, ?_⟩
  · intro msgs n
    rw [run_claude_getLastD, run_claude_getLastD]
    simp [List.map_append, List.flatten_append, List.filterMap_append,
      getLastD_append_eq, msgBlocks, textOf]
  · intro msgs baseParts taskIdOpt nowMs produced rf tf uploader startT endT
      fs0 hempty
    have h1 : _run_claude msgs = "" := by
      rw [run_claude_getLastD, hempty]
      rfl
    refine ⟨h1, ?_, ?_⟩
    · simp [execute_task, exitSuccess, successEnvelope]
    · simp [execute_task, exitResult, successEnvelope, h1]

/-- C7 witness: a stream holding only a content-less message and a tool
block yields the empty result with a successful envelope. -/
theorem run_claude_latest_text_inst :
    _run_claude [MsgContent.absent, MsgContent.blocks [Block.tool "Bash"]] =
      "" ∧
    exitSuccess (execute_task ["tmp", "claude-workspaces"] (some "t1") 0
      { mkdirFail := none,
        runOutcome := RunOutcome.ok
          [MsgContent.absent, MsgContent.blocks [Block.tool "Bash"]] [],
        collectFail := none, restoreFails := false, teardownFails := false }
      (fun _ => Except.ok { url := some "u" }) 0 7
      { cwd := ["app"], wsExists := false, wsFiles := [] }).1 = some true ∧
    exitResult (execute_task ["tmp", "claude-workspaces"] (some "t1") 0
      { mkdirFail := none,
        runOutcome := RunOutcome.ok
          [MsgContent.absent, MsgContent.blocks [Block.tool "Bash"]] [],
        collectFail := none, restoreFails := false, teardownFails := false }
      (fun _ => Except.ok { url := some "u" }) 0 7
      { cwd := ["app"], wsExists := false, wsFiles := [] }).1 =
      some (some "") :=
  run_claude_latest_text.2.2 _ _ _ _ _ _ _ _ _ _ _ rfl

/-- C5: a raising upload of one collected file does not abort the others —
the failed file is merely omitted from the artifact list — and the task's
overall success flag does not depend on the upload oracle: it stays
`true` whenever the run itself succeeded. -/
theorem upload_failure_isolated :
    (∀ (uploader : UploadFn) (f : List String) (msg : String)
        (files1 files2 : List (List String)),
      uploader f = Except.error msg →
      uploadLoop uploader (files1 ++ f :: files2) =
        uploadLoop uploader files1 ++ uploadLoop uploader files2) ∧
    (∀ (baseParts : List String) (taskIdOpt : Option String) (nowMs : Nat)
        (msgs : List MsgContent) (produced : List (List String))
        (rf tf : Bool) (uploader : UploadFn) (startT endT : Int)
        (fs0 : ProcState),
      exitSuccess (execute_task baseParts taskIdOpt nowMs
        { mkdirFail := none, runOutcome := RunOutcome.ok msgs produced,
          collectFail := none, restoreFails := rf, teardownFails := tf }
        uploader startT endT fs0).1 = some true) := by
  constructor
  · intro uploader f msg files1 files2 hf
    rw [uploadLoop_append]
    simp [uploadLoop, hf]
  · intro baseParts taskIdOpt nowMs msgs produced rf tf uploader startT endT
      fs0
    simp [execute_task, exitSuccess, successEnvelope]

/-- C5 witness: with an oracle failing exactly on `bad.txt`, the upload
loop over `a.txt, bad.txt, b.txt` equals the loop over `a.txt` plus the
loop over `b.txt`. -/
theorem upload_failure_isolated_inst :
    uploadLoop (fun p =>
        if p = ["bad.txt"] then Except.error "boom"
        else Except.ok { url := some "u" })
      ([["a.txt"]] ++ ["bad.txt"] :: [["b.txt"]]) =
      uploadLoop (fun p =>
        if p = ["bad.txt"] then Except.error "boom"
        else Except.ok { url := some "u" }) [["a.txt"]] ++
      uploadLoop (fun p =>
        if p = ["bad.txt"] then Except.error "boom"
        else Except.ok { url := some "u" }) [["b.txt"]] :=
  upload_failure_isolated.1 _ ["bad.txt"] "boom" [["a.txt"]] [["b.txt"]]
    (by simp)

/-- C6 (amended): with hidden-file exclusion on, `list_workspace_files`
returns exactly the workspace's regular files whose full path — the
workspace base components included — has no dot-prefixed component and
whose name is not literally `"__pycache__"`, `".pyc"` or `".pyo"`; the
scenario of a workspace holding `report.csv` and a hidden `.cache` yields
only `report.csv`, but a `.pyc`-suffixed file and a file inside a
`__pycache__` directory are returned, not excluded. -/
theorem list_workspace_files_characterization :
    (∀ (ws : List String) (rels : List (List String)) (p : List String),
      p ∈ list_workspace_files ws rels true ↔
        ((∃ rel, rel ∈ rels ∧ p = ws ++ rel) ∧ artifactKeep p = true)) ∧
    list_workspace_files ["ws"] [["report.csv"], [".cache"]] true =
      [["ws", "report.csv"]] ∧
    list_workspace_files ["ws"] [["a.pyc"]] true = [["ws", "a.pyc"]] ∧
    list_workspace_files ["ws"] [["__pycache__", "mod.cpython-311.pyc"]]
      true = [["ws", "__pycache__", "mod.cpython-311.pyc"]] := by
  refine ⟨?_, by decide, by decide, by decide⟩
  intro ws rels p
  constructor
  · intro hp
    rcases List.mem_filter.mp hp with ⟨hmem, hpred⟩
    rcases List.mem_map.mp hmem with ⟨rel, hrel, hrelp⟩
    refine ⟨⟨rel, hrel, hrelp.symm⟩, ?_⟩
    simpa [artifactKeep] using hpred
  · rintro ⟨⟨rel, hrel, hp⟩, hkeep⟩
    refine List.mem_filter.mpr ⟨List.mem_map.mpr ⟨rel, hrel, hp.symm⟩, ?_⟩
    simpa [artifactKeep] using hkeep

/-- C6 counterexample: `a.pyc` is a compiled/cache artifact under the
spec's exclusion rule (`collectSpec` returns nothing), yet tools.py line
46 compares only the literal file name, so the source function returns
it. -/
theorem pyc_file_not_excluded :
    list_workspace_files ["ws"] [["a.pyc"]] true = [["ws", "a.pyc"]] ∧
    collectSpec ["ws"] [["a.pyc"]] = [] := by
  constructor <;> decide

/-- C8 (amended): task identifiers generated without a supplied id are
distinct exactly when the millisecond-resolution invocation timestamps
are distinct; invocations falling in the same millisecond collide. -/
theorem distinct_timestamps_distinct_ids (ts : List Nat) :
    (ts.map genTaskId).Nodup ↔ ts.Nodup :=
  List.nodup_map_iff genTaskId_injective

/-- C8 counterexample: two distinct invocations within the same
millisecond (timestamp 1000) generate the same identifier, so the
generated identifiers are not pairwise distinct. -/
theorem same_millisecond_id_collision :
    genTaskId 1000 = genTaskId 1000 ∧
    ¬ ([genTaskId 1000, genTaskId 1000].Nodup) :=
  ⟨rfl, by simp⟩

/-- C9 (amended): the workspace path is passed explicitly to the engine
invocation through the `cwd` option, but the working-directory scoping is
additionally realised by mutating the shared process-wide current
directory (`os.chdir`, executor.py line 37), which the setup of any other
concurrent execution overwrites; the cleanup block restores the saved
directory. -/
theorem cwd_scoping_explicit_and_shared :
    (∀ (ws : String) (maxTurns : Nat),
      (mkClaudeOptions ws maxTurns).cwd = ws) ∧
    (∀ (wsParts : List String) (fs : ProcState),
      (setupPhase wsParts fs).cwd = wsParts) ∧
    (∀ (wsA wsB : List String) (fs : ProcState),
      (setupPhase wsB (setupPhase wsA fs)).cwd = wsB) ∧
    (∀ (orig : List String) (tf : Bool) (fs : ProcState),
      (finallyPhase (some orig) false tf fs).cwd = orig) := by
  refine ⟨fun ws maxTurns => rfl, fun wsParts fs => rfl,
    fun wsA wsB fs => rfl, ?_⟩
  intro orig tf fs
  show (teardownWorkspace tf { fs with cwd := orig }).cwd = orig
  unfold teardownWorkspace
  by_cases h : (({ fs with cwd := orig } : ProcState).wsExists && !tf) = true
  · rw [if_pos h]
  · rw [if_neg h]

/-- C9 counterexample: executor.py line 37 scopes the task by mutating
the process-wide current directory; the setup step of a second concurrent
task overwrites the scoping the first task installed, so one task can
mutate (and observe) another task's scoping. -/
theorem concurrent_chdir_clobbers_scoping :
    (setupPhase ["ws", "A"]
      { cwd := ["app"], wsExists := false, wsFiles := [] }).cwd =
      ["ws", "A"] ∧
    (setupPhase ["ws", "B"] (setupPhase ["ws", "A"]
      { cwd := ["app"], wsExists := false, wsFiles := [] })).cwd =
      ["ws", "B"] ∧
    (["ws", "B"] : List String) ≠ ["ws", "A"] :=
  ⟨rfl, rfl, by decide⟩

/-- C2: on every terminal outcome of `execute_task` — success, exception
during workspace setup / engine run / artifact collection, internal
timeout, or cancellation — the workspace directory no longer exists after
the guaranteed-cleanup block, provided the removal itself succeeds; and a
failing cleanup is swallowed: the caller-visible exit is identical
whatever the cleanup-failure flags. -/
theorem workspace_removed_on_all_exits (baseParts : List String)
    (taskIdOpt : Option String) (nowMs : Nat) (script : Script)
    (uploader : UploadFn) (startT endT : Int) (fs0 : ProcState)
    (hteardown : script.teardownFails = false) :
    (execute_task baseParts taskIdOpt nowMs script uploader startT endT
      fs0).2.wsExists = false ∧
    (∀ rf tf : Bool,
      (execute_task baseParts taskIdOpt nowMs
        { script with restoreFails := rf, teardownFails := tf }
        uploader startT endT fs0).1 =
      (execute_task baseParts taskIdOpt nowMs script uploader startT endT
        fs0).1) := by
  obtain ⟨mk, ro, cf, rf0, tf0⟩ := script
  have htf : tf0 = false := hteardown
  subst htf
  constructor
  · cases mk <;> cases ro <;> cases cf <;>
      simp [execute_task, finallyPhase, teardownWorkspace_wsExists_false]
  · intro rf tf
    cases mk <;> cases ro <;> cases cf <;> rfl

/-- C2 witness: a concrete successful run with succeeding teardown leaves
no workspace directory, and setting both cleanup-failure flags does not
change the exit. -/
theorem workspace_removed_on_all_exits_inst :
    (execute_task ["tmp", "claude-workspaces"] (some "t9") 0
      { mkdirFail := none,
        runOutcome := RunOutcome.ok [MsgContent.blocks [Block.text "done"]]
          [["out.txt"]],
        collectFail := none, restoreFails := false, teardownFails := false }
      (fun _ => Except.ok { url := some "u" }) 0 9
      { cwd := ["app"], wsExists := false, wsFiles := [] }).2.wsExists =
      false ∧
    (execute_task ["tmp", "claude-workspaces"] (some "t9") 0
      { mkdirFail := none,
        runOutcome := RunOutcome.ok [MsgContent.blocks [Block.text "done"]]
          [["out.txt"]],
        collectFail := none, restoreFails := true, teardownFails := true }
      (fun _ => Except.ok { url := some "u" }) 0 9
      { cwd := ["app"], wsExists := false, wsFiles := [] }).1 =
    (execute_task ["tmp", "claude-workspaces"] (some "t9") 0
      { mkdirFail := none,
        runOutcome := RunOutcome.ok [MsgContent.blocks [Block.text "done"]]
          [["out.txt"]],
        collectFail := none, restoreFails := false, teardownFails := false }
      (fun _ => Except.ok { url := some "u" }) 0 9
      { cwd := ["app"], wsExists := false, wsFiles := [] }).1 := by
  have h := workspace_removed_on_all_exits ["tmp", "claude-workspaces"]
    (some "t9") 0
    { mkdirFail := none,
      runOutcome := RunOutcome.ok [MsgContent.blocks [Block.text "done"]]
        [["out.txt"]],
      collectFail := none, restoreFails := false, teardownFails := false }
    (fun _ => Except.ok { url := some "u" }) 0 9
    { cwd := ["app"], wsExists := false, wsFiles := [] } rfl
  exact ⟨h.1, h.2 true true⟩

/-- C10: the hidden-file test of tools.py line 44 ranges over every
component of the file's absolute path — the workspace base components
included — so whenever any component of the workspace base starts with a
dot, `list_workspace_files` returns `[]` for every workspace under that
base and every completed task reports an empty artifact list. -/
theorem dotted_base_yields_no_artifacts (base ext : List String)
    (rels : List (List String)) (taskIdOpt : Option String) (nowMs : Nat)
    (msgs : List MsgContent) (produced : List (List String)) (rf tf : Bool)
    (uploader : UploadFn) (startT endT : Int) (fs0 : ProcState)
    (hdot : base.any startsWithDot = true) :
    list_workspace_files (base ++ ext) rels true = [] ∧
    (execute_task base taskIdOpt nowMs
      { mkdirFail := none, runOutcome := RunOutcome.ok msgs produced,
        collectFail := none, restoreFails := rf, teardownFails := tf }
      uploader startT endT fs0).1 =
      ExecExit.returned
        (successEnvelope (_run_claude msgs) [] startT endT) := by
  have hempty : ∀ (ext2 : List String) (rels2 : List (List String)),
      list_workspace_files (base ++ ext2) rels2 true = [] := by
    intro ext2 rels2
    unfold list_workspace_files
    rw [List.filter_eq_nil_iff]
    intro p hp
    rcases List.mem_map.mp hp with ⟨rel, hrel, hrelp⟩
    subst hrelp
    simp [List.any_append, hdot]
  refine ⟨hempty ext rels, ?_⟩
  simp [execute_task, _upload_artifacts, setupPhase,
    hempty [resolveTaskId taskIdOpt nowMs] produced, uploadLoop,
    successEnvelope]

/-- C10 witness: a base with a dot-prefixed component at a concrete
workspace and task. -/
theorem dotted_base_yields_no_artifacts_inst :
    list_workspace_files ([".hidden", "work"] ++ ["t7"]) [["report.csv"]]
      true = [] ∧
    (execute_task [".hidden", "work"] (some "t7") 0
      { mkdirFail := none,
        runOutcome := RunOutcome.ok [MsgContent.blocks [Block.text "ok"]]
          [["report.csv"]],
        collectFail := none, restoreFails := false, teardownFails := false }
      (fun _ => Except.ok { url := some "u" }) 0 3
      { cwd := ["app"], wsExists := false, wsFiles := [] }).1 =
      ExecExit.returned
        (successEnvelope
          (_run_claude [MsgContent.blocks [Block.text "ok"]]) [] 0 3) :=
  dotted_base_yields_no_artifacts [".hidden", "work"] ["t7"]
    [["report.csv"]] (some "t7") 0 [MsgContent.blocks [Block.text "ok"]]
    [["report.csv"]] false false _ 0 3 _ (by decide)

/-- C1 (amended): for every valid request (non-empty task and contextId),
on every outcome the response envelope holds exactly one of the
result / error values; whenever `duration_ms` is present it is
non-negative (given the end clock reading is not before the start); and
`duration_ms` is present exactly on the envelopes `execute_task` itself
returns (success, execution failure, internal timeout) — the
transport-layer response built when the admission deadline elapses
carries no `duration_ms`. -/
theorem envelope_exactly_one_result_error (task ctx : String)
    (taskId : Option String) (baseParts : List String) (nowMs : Nat)
    (script : Script) (uploader : UploadFn) (timeoutSecs : Nat)
    (startT endT : Int) (fs0 : ProcState)
    (htask : (task == "") = false) (hctx : (ctx == "") = false)
    (hclock : startT ≤ endT) :
    exactlyOneResultError
      ((handle_execute (ReqBody.json (some task) (some ctx) taskId)
        baseParts nowMs script uploader timeoutSecs startT endT
        fs0).1).body = true ∧
    (∀ d : Int,
      ((handle_execute (ReqBody.json (some task) (some ctx) taskId)
        baseParts nowMs script uploader timeoutSecs startT endT
        fs0).1).body.duration_ms = some d → 0 ≤ d) ∧
    (((handle_execute (ReqBody.json (some task) (some ctx) taskId)
        baseParts nowMs script uploader timeoutSecs startT endT
        fs0).1).body.duration_ms = none ↔
      (script.mkdirFail = none ∧
        script.runOutcome = RunOutcome.cancelled)) := by
  obtain ⟨mk, ro, cf, rf0, tf0⟩ := script
  refine ⟨?_, ?_, ?_⟩
  · cases mk <;> cases ro <;> cases cf <;>
      simp [handle_execute, execute_task, htask, hctx,
        exactlyOneResultError, successEnvelope, failureEnvelope,
        timeoutEnvelope, errorBody]
  · intro d hd
    cases mk <;> cases ro <;> cases cf <;>
      simp [handle_execute, execute_task, htask, hctx, successEnvelope,
        failureEnvelope, timeoutEnvelope, errorBody] at hd <;>
      omega
  · cases mk <;> cases ro <;> cases cf <;>
      simp [handle_execute, execute_task, htask, hctx, successEnvelope,
        failureEnvelope, timeoutEnvelope, errorBody]

/-- C1 witness: a valid request completing successfully at concrete
clock readings. -/
theorem envelope_exactly_one_result_error_inst :
    exactlyOneResultError
      ((handle_execute (ReqBody.json (some "do it") (some "ctx1")
          (some "t42")) ["tmp", "claude-workspaces"] 0
        { mkdirFail := none,
          runOutcome := RunOutcome.ok [MsgContent.blocks [Block.text "4"]]
            [],
          collectFail := none, restoreFails := false,
          teardownFails := false }
        (fun _ => Except.ok { url := some "u" }) 300 0 5
        { cwd := ["app"], wsExists := false, wsFiles := [] }).1).body =
      true :=
  (envelope_exactly_one_result_error "do it" "ctx1" (some "t42")
    ["tmp", "claude-workspaces"] 0
    { mkdirFail := none,
      runOutcome := RunOutcome.ok [MsgContent.blocks [Block.text "4"]] [],
      collectFail := none, restoreFails := false, teardownFails := false }
    (fun _ => Except.ok { url := some "u" }) 300 0 5
    { cwd := ["app"], wsExists := false, wsFiles := [] }
    (by decide) (by decide) (by decide)).1

/-- C1 counterexample: on the deadline-elapsed outcome of a valid request
the caller's envelope carries no `duration_ms` key at all (main.py lines
73-76), refuting "contains a duration_ms field ... on every outcome". -/
theorem deadline_response_missing_duration :
    ((handle_execute (ReqBody.json (some "do it") (some "ctx1")
        (some "t42")) ["tmp", "claude-workspaces"] 0
      { mkdirFail := none, runOutcome := RunOutcome.cancelled,
        collectFail := none, restoreFails := false, teardownFails := false }
      (fun _ => Except.ok { url := some "u" }) TASK_TIMEOUT_SECONDS 0 5
      { cwd := ["app"], wsExists := false, wsFiles := [] }).1).status =
      200 ∧
    ((handle_execute (ReqBody.json (some "do it") (some "ctx1")
        (some "t42")) ["tmp", "claude-workspaces"] 0
      { mkdirFail := none, runOutcome := RunOutcome.cancelled,
        collectFail := none, restoreFails := false, teardownFails := false }
      (fun _ => Except.ok { url := some "u" }) TASK_TIMEOUT_SECONDS 0 5
      { cwd := ["app"], wsExists := false, wsFiles := [] }).1).body.success
      = false ∧
    ((handle_execute (ReqBody.json (some "do it") (some "ctx1")
        (some "t42")) ["tmp", "claude-workspaces"] 0
      { mkdirFail := none, runOutcome := RunOutcome.cancelled,
        collectFail := none, restoreFails := false, teardownFails := false }
      (fun _ => Except.ok { url := some "u" }) TASK_TIMEOUT_SECONDS 0 5
      { cwd := ["app"], wsExists := false, wsFiles := [] }).1).body.error.isSome
      = true ∧
    ((handle_execute (ReqBody.json (some "do it") (some "ctx1")
        (some "t42")) ["tmp", "claude-workspaces"] 0
      { mkdirFail := none, runOutcome := RunOutcome.cancelled,
        collectFail := none, restoreFails := false, teardownFails := false }
      (fun _ => Except.ok { url := some "u" }) TASK_TIMEOUT_SECONDS 0 5
      { cwd := ["app"], wsExists := false, wsFiles := [] }).1).body.duration_ms
      = none :=
  ⟨rfl, rfl, rfl, rfl⟩

/-- C4 (amended): when the configured deadline elapses before
`execute_task` completes, the caller receives — no exception is raised to
it — a 200 response with `success = false` whose error message is
`"Task timed out after {timeout}s"`, a message parametrised by the
configured timeout rather than fixed; the fixed `"Task timed out"`
envelope is produced only when an `asyncio.TimeoutError` is raised inside
`execute_task` itself. -/
theorem deadline_yields_timeout_envelope (task ctx : String)
    (taskId : Option String) (baseParts : List String) (nowMs : Nat)
    (script script2 : Script) (uploader : UploadFn) (timeoutSecs : Nat)
    (startT endT : Int) (fs0 : ProcState)
    (htask : (task == "") = false) (hctx : (ctx == "") = false)
    (hmk : script.mkdirFail = none)
    (hro : script.runOutcome = RunOutcome.cancelled)
    (hmk2 : script2.mkdirFail = none)
    (hro2 : script2.runOutcome = RunOutcome.timeoutErr) :
    (handle_execute (ReqBody.json (some task) (some ctx) taskId) baseParts
        nowMs script uploader timeoutSecs startT endT fs0).1 =
      ⟨200, errorBody (timeoutMessage timeoutSecs)⟩ ∧
    (execute_task baseParts taskId nowMs script2 uploader startT endT
        fs0).1 =
      ExecExit.returned (timeoutEnvelope startT endT) := by
  obtain ⟨mk, ro, cf, rf0, tf0⟩ := script
  obtain ⟨mk2, ro2, cf2, rf2, tf2⟩ := script2
  have hmk' : mk = none := hmk
  have hro' : ro = RunOutcome.cancelled := hro
  have hmk2' : mk2 = none := hmk2
  have hro2' : ro2 = RunOutcome.timeoutErr := hro2
  subst hmk' hro' hmk2' hro2'
  constructor
  · simp [handle_execute, execute_task, htask, hctx]
  · simp [execute_task]

/-- C4 witness: concrete valid request, deadline elapsing, default
timeout configuration. -/
theorem deadline_yields_timeout_envelope_inst :
    (handle_execute (ReqBody.json (some "do it") (some "ctx1")
        (some "t42")) ["tmp", "claude-workspaces"] 0
      { mkdirFail := none, runOutcome := RunOutcome.cancelled,
        collectFail := none, restoreFails := false, teardownFails := false }
      (fun _ => Except.ok { url := some "u" }) TASK_TIMEOUT_SECONDS 0 5
      { cwd := ["app"], wsExists := false, wsFiles := [] }).1 =
      ⟨200, errorBody (timeoutMessage TASK_TIMEOUT_SECONDS)⟩ ∧
    (execute_task ["tmp", "claude-workspaces"] (some "t42") 0
      { mkdirFail := none, runOutcome := RunOutcome.timeoutErr,
        collectFail := none, restoreFails := false, teardownFails := false }
      (fun _ => Except.ok { url := some "u" }) 0 5
      { cwd := ["app"], wsExists := false, wsFiles := [] }).1 =
      ExecExit.returned (timeoutEnvelope 0 5) :=
  deadline_yields_timeout_envelope "do it" "ctx1" (some "t42")
    ["tmp", "claude-workspaces"] 0
    { mkdirFail := none, runOutcome := RunOutcome.cancelled,
      collectFail := none, restoreFails := false, teardownFails := false }
    { mkdirFail := none, runOutcome := RunOutcome.timeoutErr,
      collectFail := none, restoreFails := false, teardownFails := false }
    (fun _ => Except.ok { url := some "u" }) TASK_TIMEOUT_SECONDS 0 5
    { cwd := ["app"], wsExists := false, wsFiles := [] }
    (by decide) (by decide) rfl rfl rfl rfl

/-- C4 counterexample: at the default configuration the deadline-elapsed
error message delivered to the caller is "Task timed out after 300s" —
parametrised, not the fixed message "task timed out" (nor the executor's
own fixed "Task timed out"). -/
theorem deadline_message_not_fixed :
    ((handle_execute (ReqBody.json (some "do it") (some "ctx1")
        (some "t42")) ["tmp", "claude-workspaces"] 0
      { mkdirFail := none, runOutcome := RunOutcome.cancelled,
        collectFail := none, restoreFails := false, teardownFails := false }
      (fun _ => Except.ok { url := some "u" }) TASK_TIMEOUT_SECONDS 0 5
      { cwd := ["app"], wsExists := false, wsFiles := [] }).1).body.error =
      some (timeoutMessage TASK_TIMEOUT_SECONDS) ∧
    timeoutMessage TASK_TIMEOUT_SECONDS ≠ "task timed out" ∧
    timeoutMessage TASK_TIMEOUT_SECONDS ≠ "Task timed out" :=
  ⟨rfl, timeoutMessage_ne_short _ _ (by decide),
    timeoutMessage_ne_short _ _ (by decide)⟩

/-- C3: along every run of the admission-semaphore protocol started from
a fresh semaphore of capacity `n` with `r` submitted requests, at most
`n` requests are inside the execution phase at any reachable state, and
each request releases its slot at most once — exactly once when it has
finished, whatever the outcome inside the block. -/
theorem semaphore_bound_and_single_release (n r : Nat)
    (ls : List SemLabel) (s : Sys)
    (htr : SemTrace (semInit n r) ls s) :
    execCount s ≤ n ∧
    (∀ i, ls.count (SemLabel.rel i) ≤ 1) ∧
    (∀ i, s.tasks[i]? = some Phase.finished →
      ls.count (SemLabel.rel i) = 1) := by
  have hinv := semTrace_sem_execCount htr
  have hinit : execCount (semInit n r) = 0 := by
    simp [execCount, semInit, List.count_replicate]
  refine ⟨?_, ?_, ?_⟩
  · have hsem : (semInit n r).sem = n := rfl
    rw [hinit, hsem] at hinv
    omega
  · intro i
    have hbud := semTrace_rel_budget htr i
    have h1 := relBudget_le_one (phaseOf (semInit n r) i)
    omega
  · intro i hfin
    have hbud := semTrace_rel_budget htr i
    have hi : i < r := by
      have hlen := semTrace_length htr
      have := List.getElem?_eq_some_iff.mp hfin
      rcases this with ⟨hlt, _⟩
      rw [hlen] at hlt
      simpa [semInit] using hlt
    have hstart : phaseOf (semInit n r) i = Phase.waiting := by
      simp [phaseOf, semInit, List.getElem?_replicate, hi]
    have hend : phaseOf s i = Phase.finished := by
      simp [phaseOf, hfin]
    rw [hstart, hend] at hbud
    simpa [relBudget] using hbud

/-- C3 witness: capacity 1, two requests admitted one after the other;
both finish and each released exactly once. -/
theorem semaphore_bound_and_single_release_inst :
    execCount ⟨1, [Phase.finished, Phase.finished]⟩ ≤ 1 ∧
    [SemLabel.acq 0, SemLabel.rel 0, SemLabel.acq 1,
      SemLabel.rel 1].count (SemLabel.rel 0) = 1 := by
  have h := semaphore_bound_and_single_release 1 2
    [SemLabel.acq 0, SemLabel.rel 0, SemLabel.acq 1, SemLabel.rel 1]
    ⟨1, [Phase.finished, Phase.finished]⟩
    (SemTrace.cons (SemStep.acq rfl (by decide))
      (SemTrace.cons (SemStep.rel rfl)
        (SemTrace.cons (SemStep.acq rfl (by decide))
          (SemTrace.cons (SemStep.rel rfl) SemTrace.nil))))
  exact ⟨h.1, h.2.2 0 rfl⟩

end Cortex




